import Mathlib

/-!
Verification of the md2pdf repository (Gluendo/md2pdf).

The repository contains three near-duplicate generator scripts:
  * `generate-pdfs.js` — the locally-invoked entry point ("local variant");
  * the containerized entry point (`src/unnamed/part_001`, "container variant");
  * a further copy of the containerized script appended inside `src/README.md`
    whose `processMermaid` substitutes diagram blocks one at a time
    ("per-block variant").

Documents are modelled as lists of characters (`Str`).  Each definition below
is a direct translation of the corresponding JavaScript function; the doc
comment of a definition names its source.
-/

namespace Md2Pdf

/-- Documents and strings are lists of characters. -/
abbrev Str := List Char

/-! ## String scanning primitives (JS `String.prototype` operations) -/

/-- Index of the first occurrence of `pat` in `s` (leftmost match), or `none`.
This is the search JS `String.prototype.replace` performs when its first
argument is a plain string, and also how a JS regex engine locates the
earliest match start. -/
def firstOccurrence (pat s : Str) : Option Nat :=
  (List.range (s.length + 1)).find? (fun i => pat.isPrefixOf (s.drop i))

/-- JS `s.replace(pat, repl)` with a plain-string `pat` (no `$` patterns in
`repl`): replace the first occurrence of `pat`, or return `s` unchanged when
`pat` does not occur. -/
def replaceFirst (s pat repl : Str) : Str :=
  match firstOccurrence pat s with
  | none => s
  | some i => s.take i ++ repl ++ s.drop (i + pat.length)

/-- JS `s.includes(pat)`. -/
def containsSub (s pat : Str) : Bool :=
  (firstOccurrence pat s).isSome

/-- JS `s.endsWith(pat)`. -/
def endsWith (s pat : Str) : Bool :=
  pat.isSuffixOf s

/-- JS `s.toLowerCase()` (ASCII inputs). -/
def lowerStr (s : Str) : Str :=
  s.map Char.toLower

/-! ## The Mermaid fence scan

The per-block variant extracts diagram blocks with the regex
`/```mermaid\n([\s\S]*?)```/g`, executed repeatedly on the *original* document
text (`mermaidRegex.exec(content)`), each call resuming at the end of the
previous match.  A match consists of the literal opening fence, the shortest
(`*?` is lazy) inner text followed by `` ``` ``, and that closing fence. -/

/-- The literal opening fence matched by the regex. -/
def openFence : Str := "```mermaid\n".data

/-- The literal closing fence matched by the regex. -/
def closeFence : Str := "```".data

/-- The substring `hasMermaid` looks for (note: no trailing newline). -/
def mermaidTag : Str := "```mermaid".data

/-- One step of the repeated `exec`: find the earliest opening fence, then the
earliest closing fence after it (the lazy `[\s\S]*?`), emit the whole match
`match[0]`, and resume after the closing fence.  The `fuel` argument only
bounds the number of iterations (each match consumes at least one character),
making the recursion structural. -/
def scanFrom : Nat → Str → List Str
  | 0, _ => []
  | fuel + 1, s =>
    match firstOccurrence openFence s with
    | none => []
    | some i =>
      let rest := (s.drop i).drop openFence.length
      match firstOccurrence closeFence rest with
      | none => []
      | some j =>
        (openFence ++ rest.take j ++ closeFence) :: scanFrom fuel (rest.drop (j + closeFence.length))

/-- All diagram-block matches (`match[0]` texts) of a document, in document
order, as produced by the `while ((match = mermaidRegex.exec(content)) ...)`
loop of the per-block variant. -/
def scanBlocks (s : Str) : List Str :=
  scanFrom (s.length + 1) s

/-- `hasMermaid` of all three variants:
`fs.readFileSync(filePath, 'utf-8').includes('```mermaid')`. -/
def hasMermaid (content : Str) : Bool :=
  containsSub content mermaidTag

/-! ## The per-block substituter (`processMermaid` of the README-embedded variant)

For each regex match (1-based counter `idx`), the code renders the inner text
with `mmdc`; the block succeeds when `execSync` does not throw *and* the svg
file exists.  On success it runs
`processed = processed.replace(match[0], `![](svgFile)`)` on the progressively
mutated `processed` string and increments `successCount`; otherwise it
increments `failCount` and moves on.  The render outcome of block number `n`
is abstracted as `outs n : Bool`. -/

/-- The replacement text spliced in for block number `idx`:
`![](${svgFile})` with `svgFile = path.join(TEMP_DIR, baseName + '-' + idx + '.svg')`. -/
def imgRef (tempDir base : Str) (idx : Nat) : Str :=
  "![](".data ++ tempDir ++ "/".data ++ base ++ "-".data ++ (Nat.repr idx).data ++ ".svg)".data

/-- The `while` loop of the per-block `processMermaid`: one step per block of
the original text, threading `(processed, successCount, failCount)`.
`img n` is the replacement text for block number `n`. -/
def substLoop (img : Nat → Str) (outs : Nat → Bool) : List Str → Nat → Str → Str × Nat × Nat
  | [], _, processed => (processed, 0, 0)
  | b :: bs, idx, processed =>
    if outs (idx + 1) then
      let r := substLoop img outs bs (idx + 1) (replaceFirst processed b (img (idx + 1)))
      (r.1, r.2.1 + 1, r.2.2)
    else
      let r := substLoop img outs bs (idx + 1) processed
      (r.1, r.2.1, r.2.2 + 1)

/-- The per-block `processMermaid` on document text: scan the original content
for diagram blocks, then run the substitution loop over them.  Returns the
final `processed` text with the success/failure counters. -/
def processMermaid (tempDir base : Str) (outs : Nat → Bool) (content : Str) : Str × Nat × Nat :=
  substLoop (imgRef tempDir base) outs (scanBlocks content) 0 content

/-- The document text the per-block `processMermaid` hands on to the caller:
with no block (`idx === 0`) or no success it returns `inputPath` (the original
text); with at least one success it writes `processed` and returns its path. -/
def processMermaidReturn (tempDir base : Str) (outs : Nat → Bool) (content : Str) : Str :=
  if (scanBlocks content).length = 0 then content
  else
    let r := processMermaid tempDir base outs content
    if 0 < r.2.1 then r.1 else content

/-! ## Specification combinators for the substituter theorems -/

/-- `interleave [s₀, …, s_k] [b₀, …, b_(k-1)] = s₀ ++ b₀ ++ s₁ ++ … ++ b_(k-1) ++ s_k`:
a document decomposed into its diagram blocks `bᵢ` and the text between
them `sᵢ`. -/
def interleave : List Str → List Str → Str
  | [], _ => []
  | s :: _, [] => s
  | s :: ss, b :: bs => s ++ b ++ interleave ss bs

/-- The in-place substitution result demanded by the specification: every
successful block is replaced by its image reference at its own position, every
failed block stays as raw source, all surrounding text unchanged. -/
def interleaveRepl (img : Nat → Str) (outs : Nat → Bool) : Nat → List Str → List Str → Str
  | _, [], _ => []
  | _, s :: _, [] => s
  | idx, s :: ss, b :: bs =>
    s ++ (if outs (idx + 1) then img (idx + 1) else b) ++ interleaveRepl img outs (idx + 1) ss bs

/-- Checks that at every successful step of the substitution loop the first
occurrence of the block's literal text in the current `processed` string is at
the block's own position, so that the string-based `replace` lands in place.
`acc` is the already-rewritten prefix of the document. -/
def goodSteps (img : Nat → Str) (outs : Nat → Bool) : Nat → Str → List Str → List Str → Bool
  | _, _, _, [] => true
  | _, _, [], _ :: _ => false
  | idx, acc, s :: ss, b :: bs =>
    (if outs (idx + 1) then
      firstOccurrence b (acc ++ s ++ b ++ interleave ss bs) == some (acc ++ s).length
     else true)
    && goodSteps img outs (idx + 1) (acc ++ s ++ (if outs (idx + 1) then img (idx + 1) else b)) ss bs

/-- Success/failure counts over blocks numbered `idx+1, …, idx+n`. -/
def countOutcomes (outs : Nat → Bool) : Nat → Nat → Nat × Nat
  | _, 0 => (0, 0)
  | idx, n + 1 =>
    let r := countOutcomes outs (idx + 1) n
    if outs (idx + 1) then (r.1 + 1, r.2) else (r.1, r.2 + 1)

/-! ## Brand configuration resolver (`loadBrandConfig` / `loadBrand`)

A user `brand.json`, typed after the `BrandConfig` schema; `none` marks an
absent key.  The three input cases of the JS function — file missing, file
present but `JSON.parse` throws, file parsed — are the constructors of
`BrandFile`. -/

/-- A user-supplied (partial) `colors` object. -/
structure UserColors where
  primary : Option Str
  accent : Option Str
  secondary : Option Str
  warning : Option Str
  lightGrey : Option Str
  borderGrey : Option Str

/-- A user-supplied (partial) `font` object. -/
structure UserFont where
  family : Option Str
  url : Option Str

/-- A user-supplied (partial) brand configuration. -/
structure UserBrand where
  name : Option Str
  header : Option Str
  footer : Option Str
  colors : Option UserColors
  font : Option UserFont

/-- The fully resolved `colors` object (every key present). -/
structure BrandColors where
  primary : Str
  accent : Str
  secondary : Str
  warning : Str
  lightGrey : Str
  borderGrey : Str
deriving DecidableEq

/-- The resolved `font` object.  Because the `font` key of a parsed user
config replaces the default wholesale (`{...defaultBrand, ...brand}`), its
sub-fields can end up absent (`undefined` in JS), hence `Option`. -/
structure BrandFont where
  family : Option Str
  url : Option Str
deriving DecidableEq

/-- The resolved brand configuration returned by `loadBrandConfig`. -/
structure Brand where
  name : Str
  header : Str
  footer : Str
  colors : BrandColors
  font : BrandFont
deriving DecidableEq

/-- The `defaultBrand.colors` literal of `generate-pdfs.js` (also the
`defaults.colors` literal of the container variant). -/
def defaultColors : BrandColors :=
  { primary := "#1a365d".data
    accent := "#3182ce".data
    secondary := "#2c7a7b".data
    warning := "#c53030".data
    lightGrey := "#f7fafc".data
    borderGrey := "#e2e8f0".data }

/-- The default font family string (also the `||` fallback literal in
`buildPdfOptions`). -/
def defaultFontFamily : Str := "system-ui, -apple-system, sans-serif".data

/-- The `defaultBrand.font` literal: `{ family: 'system-ui, …', url: null }`. -/
def defaultFont : BrandFont := { family := some defaultFontFamily, url := none }

/-- The full `defaultBrand` literal. -/
def defaultBrand : Brand :=
  { name := "Document".data
    header := []
    footer := []
    colors := defaultColors
    font := defaultFont }

/-- The three states of the brand file on disk. -/
inductive BrandFile
  | missing
  | invalid
  | parsed (u : UserBrand)

/-- The key-by-key spread `{...defaultBrand.colors, ...brand.colors}`
(spreading an absent object contributes nothing). -/
def mergeColors (u : Option UserColors) : BrandColors :=
  match u with
  | none => defaultColors
  | some c =>
    { primary := c.primary.getD defaultColors.primary
      accent := c.accent.getD defaultColors.accent
      secondary := c.secondary.getD defaultColors.secondary
      warning := c.warning.getD defaultColors.warning
      lightGrey := c.lightGrey.getD defaultColors.lightGrey
      borderGrey := c.borderGrey.getD defaultColors.borderGrey }

/-- `loadBrandConfig` of `generate-pdfs.js`: defaults when the file is missing;
defaults plus a `console.warn` (the returned `Bool`) when `JSON.parse` throws;
otherwise `{ ...defaultBrand, ...brand, colors: {...defaultBrand.colors, ...brand.colors} }`
— top-level keys replaced wholesale when present (so a partial user `font`
object replaces `defaultBrand.font` entirely), colors merged key by key. -/
def loadBrandConfig : BrandFile → Brand × Bool
  | .missing => (defaultBrand, false)
  | .invalid => (defaultBrand, true)
  | .parsed u =>
    ({ name := u.name.getD defaultBrand.name
       header := u.header.getD defaultBrand.header
       footer := u.footer.getD defaultBrand.footer
       colors := mergeColors u.colors
       font := (u.font.map (fun f => { family := f.family, url := f.url })).getD defaultBrand.font },
     false)

/-- `loadBrand` of the container variant — character-for-character the same
defaults and the same spread expression as `loadBrandConfig`. -/
def loadBrand : BrandFile → Brand × Bool
  | .missing => (defaultBrand, false)
  | .invalid => (defaultBrand, true)
  | .parsed u =>
    ({ name := u.name.getD defaultBrand.name
       header := u.header.getD defaultBrand.header
       footer := u.footer.getD defaultBrand.footer
       colors := mergeColors u.colors
       font := (u.font.map (fun f => { family := f.family, url := f.url })).getD defaultBrand.font },
     false)

/-- The font family used by `buildPdfOptions` of the local variant:
`brand.font.family || 'system-ui, -apple-system, sans-serif'` (JS `||`
falls through on `undefined` and on the empty string). -/
def localFontFamily (b : Brand) : Str :=
  match b.font.family with
  | none => defaultFontFamily
  | some f => if f = [] then defaultFontFamily else f

/-- The font family read by `getPdfOptions` of the container variant:
`const fontFamily = brand.font.family;` — no fallback, the raw value. -/
def containerFontFamily (b : Brand) : Option Str :=
  b.font.family

/-! ## Batch driver: directory file selection -/

/-- `'.md'`. -/
def mdExt : Str := ".md".data

/-- `'template'`. -/
def templateStr : Str := "template".data

/-- `'readme'`. -/
def readmeStr : Str := "readme".data

/-- File selection of the local variant's `main`:
`allFiles.filter(f => f.endsWith('.md')).filter(f => !f.includes('template') && !f.toLowerCase().includes('readme'))`. -/
def selectLocal (names : List Str) : List Str :=
  (names.filter (fun f => endsWith f mdExt)).filter
    (fun f => !containsSub f templateStr && !containsSub (lowerStr f) readmeStr)

/-- File selection of the container variant's `main`:
`fs.readdirSync(targetPath).filter(f => f.endsWith('.md') && !f.toLowerCase().includes('readme'))`. -/
def selectContainer (names : List Str) : List Str :=
  names.filter (fun f => endsWith f mdExt && !containsSub (lowerStr f) readmeStr)

/-! ## Batch timestamp

`getDateTimeSuffix` of the local variant builds the date part from
`now.toISOString()` — the **UTC** calendar date — and the time part from
`now.toTimeString()` — the **local** wall-clock time.  `getTimestamp` of the
container variant slices everything out of `toISOString` (all UTC).  A JS
`Date` is modelled by its UTC calendar fields plus the local-timezone offset
(local wall clock = UTC + `tzOffsetMinutes`). -/

/-- The instant `new Date()` captures, as UTC fields plus timezone offset. -/
structure Clock where
  year : Nat
  month : Nat
  day : Nat
  hour : Nat
  minute : Nat
  tzOffsetMinutes : Int

/-- Two-digit zero-padded decimal. -/
def pad2 (n : Nat) : Str := [Nat.digitChar (n / 10 % 10), Nat.digitChar (n % 10)]

/-- Four-digit zero-padded decimal. -/
def pad4 (n : Nat) : Str :=
  [Nat.digitChar (n / 1000 % 10), Nat.digitChar (n / 100 % 10),
   Nat.digitChar (n / 10 % 10), Nat.digitChar (n % 10)]

/-- Minutes past local midnight shown by `toTimeString` (local clock =
UTC + offset, wrapped into one day). -/
def localMinutesOfDay (c : Clock) : Nat :=
  ((((c.hour * 60 + c.minute : Int) + c.tzOffsetMinutes) % 1440)).toNat

/-- `getDateTimeSuffix` of the local variant:
`toISOString().slice(0,10)` stripped of dashes (UTC date) followed by `-` and
`toTimeString().slice(0,5)` stripped of the colon (local HHmm). -/
def getDateTimeSuffix (c : Clock) : Str :=
  pad4 c.year ++ pad2 c.month ++ pad2 c.day ++ "-".data
    ++ pad2 (localMinutesOfDay c / 60) ++ pad2 (localMinutesOfDay c % 60)

/-- `getTimestamp` of the container variant:
`toISOString().slice(0,16)` reformatted to `YYYYMMDD-HHmm` — all UTC fields. -/
def getTimestamp (c : Clock) : Str :=
  pad4 c.year ++ pad2 c.month ++ pad2 c.day ++ "-".data ++ pad2 c.hour ++ pad2 c.minute

/-- Modelled from the spec: "output filename for source `spec.md` processed at
2024-03-05T14:07 is `spec_20240305-1407.<ext>`" — the `YYYYMMDD-HHmm` stamp of
one single calendar moment. -/
def specStamp (y mo d h mi : Nat) : Str :=
  pad4 y ++ pad2 mo ++ pad2 d ++ "-".data ++ pad2 h ++ pad2 mi

/-- Output file name `${fileName}_${dateSuffix}.pdf` (both variants). -/
def outputName (base suffix : Str) : Str :=
  base ++ "_".data ++ suffix ++ ".pdf".data

/-- The local variant's batch loop: `dateSuffix` is computed once before the
`for` loop and passed to every `generatePdf` call. -/
def batchOutputs (bases : List Str) (c : Clock) : List Str :=
  bases.map (fun b => outputName b (getDateTimeSuffix c))

/-! ## Whole-file Mermaid preprocessing (local and container variants)

`preprocessMermaid` (local) and `processMermaid` (container, `part_001`) shell
out to `mmdc` exactly once with the whole input file; on any failure the
`catch` returns the original `inputPath`.  The single external invocation's
outcome is a value of `MmdcResult`. -/

/-- Outcome of the single whole-file `mmdc` invocation: the transformed
document it wrote, or failure (`execSync` threw). -/
inductive MmdcResult
  | ok (transformed : Str)
  | failed
deriving DecidableEq

/-- `processMermaid` of the container variant on document text, paired with
the number of `mmdc` invocations it makes: always exactly one; on failure the
original text is handed on. -/
def containerProcessMermaid (input : Str) (r : MmdcResult) : Str × Nat :=
  match r with
  | .ok t => (t, 1)
  | .failed => (input, 1)

/-- The preprocessing step of the container variant's `convertFile`:
`if (hasMermaid(inputPath)) processedPath = processMermaid(...)`. -/
def containerPreprocess (input : Str) (r : MmdcResult) : Str × Nat :=
  if hasMermaid input then containerProcessMermaid input r else (input, 0)

/-- The preprocessing step of the local variant's `generatePdf`: identical
gating (`if (hasMermaid(inputPath))`) around the identically structured
whole-file `preprocessMermaid`. -/
def localPreprocess (input : Str) (r : MmdcResult) : Str × Nat :=
  if hasMermaid input then
    match r with
    | .ok t => (t, 1)
    | .failed => (input, 1)
  else (input, 0)

/-! ## Scratch-directory cleanup on the termination paths of a run -/

/-- Termination paths of one run, after the scratch directory `TEMP_DIR` has
been created inside `main`. -/
inductive TermPath
  | success
  | perFileFailure
  | fatalError
deriving DecidableEq

/-- Whether the local variant removes `TEMP_DIR` on each path: `main` ends
with `cleanup()` (also after per-file failures, which are caught inside the
loop), and its `main().catch` handler runs `cleanup()` before
`process.exit(1)`. -/
def localScratchRemoved : TermPath → Bool
  | .success => true
  | .perFileFailure => true
  | .fatalError => true

/-- Whether the container variant removes `TEMP_DIR` on each path: `main` ends
with `fs.rmSync(TEMP_DIR, ...)`, but its `main().catch` handler is
`err => { console.error(err); process.exit(1); }` — no removal. -/
def containerScratchRemoved : TermPath → Bool
  | .success => true
  | .perFileFailure => true
  | .fatalError => false

/-! ## Concrete documents used as counterexamples and witnesses -/

/-- Scratch directory path used in concrete runs of the per-block substituter. -/
def cTmp : Str := "/tmp/c".data

/-- Input basename used in concrete runs of the per-block substituter. -/
def cBase : Str := "doc".data

/-- A diagram block whose literal text occurs twice in `cDoc`. -/
def cB : Str := "```mermaid\ng\n```".data

/-- Text before the first block of `cDoc`. -/
def cS0 : Str := "A\n".data

/-- Text between the two blocks of `cDoc`. -/
def cS1 : Str := "\nmid\n".data

/-- Text after the second block of `cDoc`. -/
def cS2 : Str := "\nend".data

/-- A document with two diagram blocks of identical literal text. -/
def cDoc : Str := "A\n```mermaid\ng\n```\nmid\n```mermaid\ng\n```\nend".data

/-- Outcomes where block 1 fails and block 2 succeeds. -/
def cOuts : Nat → Bool := fun n => n == 2

/-- A second two-identical-block document (for the graceful-degradation claim). -/
def dTmp : Str := "/tmp/d".data

/-- Basename for the `dDoc` run. -/
def dBase : Str := "n".data

/-- The repeated block of `dDoc`. -/
def dB : Str := "```mermaid\nq\n```".data

/-- Text before the first block of `dDoc`. -/
def dS0 : Str := "P\n".data

/-- Text between the blocks of `dDoc`. -/
def dS1 : Str := "\nQ\n".data

/-- Text after the second block of `dDoc`. -/
def dS2 : Str := "\nR".data

/-- A document with two diagram blocks of identical literal text. -/
def dDoc : Str := "P\n```mermaid\nq\n```\nQ\n```mermaid\nq\n```\nR".data

/-- Outcomes where block 1 fails and block 2 succeeds. -/
def dOuts : Nat → Bool := fun n => n == 2

/-- Scratch directory for the two-distinct-block witness run. -/
def wTmp : Str := "/tmp/w".data

/-- Basename for the witness run. -/
def wBase : Str := "d".data

/-- Text before block 1 of `wDoc`. -/
def wS0 : Str := "H\n".data

/-- Text between the blocks of `wDoc`. -/
def wS1 : Str := "\nm\n".data

/-- Text after block 2 of `wDoc`. -/
def wS2 : Str := "\nz".data

/-- A document with two distinct diagram blocks. -/
def wDoc : Str := "H\n```mermaid\na\n```\nm\n```mermaid\nb\n```\nz".data

/-- Outcomes where every block succeeds. -/
def wOuts : Nat → Bool := fun _ => true

/-- Scratch directory for the three-block witness run. -/
def gTmp : Str := "/tmp/g".data

/-- Basename for the three-block witness run. -/
def gBase : Str := "m".data

/-- Block 2 of `gDoc` (the one mocked to fail). -/
def gB2 : Str := "```mermaid\nb\n```".data

/-- Text pieces around the three blocks of `gDoc`. -/
def gS0 : Str := "S\n".data

/-- Text between blocks 1 and 2 of `gDoc`. -/
def gS1 : Str := "\nt\n".data

/-- Text between blocks 2 and 3 of `gDoc`. -/
def gS2 : Str := "\nu\n".data

/-- Text after block 3 of `gDoc`. -/
def gS3 : Str := "\nE".data

/-- A document with three distinct diagram blocks. -/
def gDoc : Str :=
  "S\n```mermaid\na\n```\nt\n```mermaid\nb\n```\nu\n```mermaid\nc\n```\nE".data

/-- Outcomes where only block 2 fails. -/
def gOuts : Nat → Bool := fun n => !(n == 2)

/-- A user `font` object supplying only `url`. -/
def u3font : UserFont := { family := none, url := some "https://fonts.example/a.css".data }

/-- A valid user config supplying only `font.url`. -/
def u3 : UserBrand :=
  { name := none, header := none, footer := none, colors := none, font := some u3font }

/-- A user `font` object supplying only `url` (second instance). -/
def u8font : UserFont := { family := none, url := some "https://fonts.example/b.css".data }

/-- A valid user config with a name, one color, and a url-only font. -/
def u8 : UserBrand :=
  { name := some "Acme".data
    header := none
    footer := none
    colors := some { primary := none, accent := some "#112233".data, secondary := none,
                     warning := none, lightGrey := none, borderGrey := none }
    font := some u8font }

/-- File name `README.md`. -/
def readmeName : Str := "README.md".data

/-- File name `template.md`. -/
def templateName : Str := "template.md".data

/-- File name `doc.md`. -/
def docName : Str := "doc.md".data

/-- File name `Template.md` (capital T). -/
def mixedTemplateName : Str := "Template.md".data

/-- File name `notes.md`. -/
def notesName : Str := "notes.md".data

/-- Source basename `spec`. -/
def specBase : Str := "spec".data

/-- A clock at UTC 2024-03-05T22:30Z in a UTC+2 timezone (local calendar time
2024-03-06T00:30). -/
def clkMix : Clock :=
  { year := 2024, month := 3, day := 5, hour := 22, minute := 30, tzOffsetMinutes := 120 }

/-- A clock at 2024-03-05T14:07 in a UTC timezone. -/
def clkUtc : Clock :=
  { year := 2024, month := 3, day := 5, hour := 14, minute := 7, tzOffsetMinutes := 0 }

/-- A document containing the `` ```mermaid `` substring but no complete
fenced diagram block (no newline after the tag, no closing fence). -/
def nbDoc : Str := "x```mermaid".data

/-- A document with no diagram notation at all. -/
def plainDoc : Str := "hello world".data

/-- A document with one complete diagram block. -/
def c10Doc : Str := "T\n```mermaid\nz\n```\n".data

/-! ## Helper lemmas about the substitution loop -/

/-- When the first occurrence of `b` in `p ++ (b ++ t)` is the explicit one,
`replaceFirst` splices the replacement exactly there. -/
theorem replaceFirst_at (p b t r : Str)
    (h : firstOccurrence b (p ++ (b ++ t)) = some p.length) :
    replaceFirst (p ++ (b ++ t)) b r = p ++ (r ++ t) := by
  have h1 : (p ++ (b ++ t)).take p.length = p := List.take_left' rfl
  have h2 : (p ++ (b ++ t)).drop (p.length + b.length) = t := by
    rw [← List.append_assoc]
    exact List.drop_left' (by simp)
  simp only [replaceFirst, h, h1, h2, List.append_assoc]

/-- `replaceFirst_at` restated with fully right-associated appends, the shape
`simp [List.append_assoc]` produces. -/
theorem replaceFirst_normal (acc s b t r : Str)
    (h : firstOccurrence b (acc ++ (s ++ (b ++ t))) = some (acc.length + s.length)) :
    replaceFirst (acc ++ (s ++ (b ++ t))) b r = acc ++ (s ++ (r ++ t)) := by
  have h' : firstOccurrence b ((acc ++ s) ++ (b ++ t)) = some (acc ++ s).length := by
    simpa [List.append_assoc] using h
  have hs := replaceFirst_at (acc ++ s) b t r h'
  simpa [List.append_assoc] using hs

/-- Core correctness of the per-block loop: as long as every successful
replacement finds its block's text first at the block's own position
(`goodSteps`), the loop rewrites the document in place, preserving all
separator text and all failed blocks. -/
theorem substLoop_text (img : Nat → Str) (outs : Nat → Bool) :
    ∀ (bs ss : List Str) (idx : Nat) (acc : Str),
      goodSteps img outs idx acc ss bs = true →
      (substLoop img outs bs idx (acc ++ interleave ss bs)).1
        = acc ++ interleaveRepl img outs idx ss bs := by
  intro bs
  induction bs with
  | nil =>
    intro ss idx acc _
    cases ss <;> simp [substLoop, interleave, interleaveRepl]
  | cons b bs' ih =>
    intro ss idx acc hg
    cases ss with
    | nil => simp [goodSteps] at hg
    | cons s ss' =>
      simp only [goodSteps, Bool.and_eq_true] at hg
      obtain ⟨h1, h2⟩ := hg
      by_cases ho : outs (idx + 1) = true
      · rw [if_pos ho] at h1 h2
        have h1' : firstOccurrence b (acc ++ (s ++ (b ++ interleave ss' bs')))
            = some (acc.length + s.length) := by
          have h := eq_of_beq h1
          simpa [List.append_assoc] using h
        have hih := ih ss' (idx + 1) (acc ++ s ++ img (idx + 1)) h2
        simp only [substLoop, interleave, interleaveRepl, ho, if_true, List.append_assoc]
        rw [replaceFirst_normal _ _ _ _ _ h1']
        simpa [List.append_assoc] using hih
      · rw [if_neg ho] at h1 h2
        have hih := ih ss' (idx + 1) (acc ++ s ++ b) h2
        simp only [substLoop, interleave, interleaveRepl, ho, if_false,
          Bool.false_eq_true, List.append_assoc]
        simpa [List.append_assoc] using hih

/-- The success/failure counters of the loop depend only on the outcomes:
they count exactly the successful and the failed blocks. -/
theorem substLoop_counts (img : Nat → Str) (outs : Nat → Bool) :
    ∀ (bs : List Str) (idx : Nat) (P : Str),
      (substLoop img outs bs idx P).2 = countOutcomes outs idx bs.length := by
  intro bs
  induction bs with
  | nil => intro idx P; simp [substLoop, countOutcomes]
  | cons b bs' ih =>
    intro idx P
    by_cases ho : outs (idx + 1) = true <;>
      simp [substLoop, countOutcomes, ho, ih]

/-- With no successful block the loop never rewrites anything. -/
theorem substLoop_fst_no_success (img : Nat → Str) (outs : Nat → Bool) :
    ∀ (bs : List Str) (idx : Nat) (P : Str),
      (substLoop img outs bs idx P).2.1 = 0 → (substLoop img outs bs idx P).1 = P := by
  intro bs
  induction bs with
  | nil => intro idx P _; simp [substLoop]
  | cons b bs' ih =>
    intro idx P h
    by_cases ho : outs (idx + 1) = true
    · simp [substLoop, ho] at h
    · simp only [substLoop, if_neg ho] at h ⊢
      exact ih _ _ h

/-- The text the per-block `processMermaid` hands to the caller is always its
final `processed` string: with at least one success the processed file is
returned, and otherwise `processed` was never rewritten, so returning
`inputPath` yields the same text. -/
theorem processMermaidReturn_eq (tempDir base : Str) (outs : Nat → Bool) (content : Str) :
    processMermaidReturn tempDir base outs content
      = (processMermaid tempDir base outs content).1 := by
  unfold processMermaidReturn
  by_cases h0 : (scanBlocks content).length = 0
  · have hb : scanBlocks content = [] := List.length_eq_zero.mp h0
    simp [h0, processMermaid, hb, substLoop]
  · simp only [if_neg h0]
    by_cases hs : 0 < (processMermaid tempDir base outs content).2.1
    · simp [hs]
    · have hz : (processMermaid tempDir base outs content).2.1 = 0 :=
        Nat.eq_zero_of_not_pos hs
      simp only [if_neg hs]
      exact (substLoop_fst_no_success _ _ _ _ _ hz).symm

/-- A document without the `hasMermaid` substring contains no opening fence,
hence no diagram block at all. -/
theorem scanBlocks_nil_of_no_tag (s : Str) (h : hasMermaid s = false) :
    scanBlocks s = [] := by
  have hnone : firstOccurrence mermaidTag s = none := by
    unfold hasMermaid containsSub at h
    exact Option.not_isSome_iff_eq_none.mp (by simp [h])
  have hopen : firstOccurrence openFence s = none := by
    unfold firstOccurrence at hnone ⊢
    rw [List.find?_eq_none] at hnone ⊢
    intro i hi hpre
    apply hnone i hi
    have htag : mermaidTag <+: openFence := ⟨['\n'], rfl⟩
    have hp : openFence <+: s.drop i := List.isPrefixOf_iff_prefix.mp hpre
    exact List.isPrefixOf_iff_prefix.mpr (htag.trans hp)
  simp [scanBlocks, scanFrom, hopen]

/-- A lowercase pattern occurring in `f` also occurs in `f.toLowerCase()`. -/
theorem containsSub_lower_of (f pat : Str) (hp : lowerStr pat = pat)
    (h : containsSub f pat = true) : containsSub (lowerStr f) pat = true := by
  unfold containsSub firstOccurrence at h ⊢
  rw [List.find?_isSome] at h ⊢
  obtain ⟨i, hi, hpre⟩ := h
  refine ⟨i, ?_, ?_⟩
  · simpa [lowerStr, List.length_map] using hi
  · have hx : pat <+: f.drop i := List.isPrefixOf_iff_prefix.mp hpre
    have hy : lowerStr pat <+: lowerStr (f.drop i) := List.IsPrefix.map _ hx
    rw [hp] at hy
    have hz : lowerStr (f.drop i) = (lowerStr f).drop i := by
      simp [lowerStr, List.map_drop]
    rw [hz] at hy
    exact List.isPrefixOf_iff_prefix.mpr hy

/-! ## Claim C1 — in-place substitution of successful blocks -/

/-- C1, counterexample.  In `cDoc` the same fenced text `cB` appears as block 1
and as block 2; block 1 fails, block 2 succeeds.  The per-block substituter
replaces the *first* occurrence of the literal text, i.e. block 1's span, so
block 2's image reference lands at failed block 1's position while block 2's
own span keeps the raw source — not the in-place result the claim demands. -/
theorem processMermaid_misplaced_duplicate :
    scanBlocks cDoc = [cB, cB] ∧
    cDoc = interleave [cS0, cS1, cS2] [cB, cB] ∧
    (processMermaid cTmp cBase cOuts cDoc).1
      = cS0 ++ imgRef cTmp cBase 2 ++ cS1 ++ cB ++ cS2 ∧
    (processMermaid cTmp cBase cOuts cDoc).1
      ≠ interleaveRepl (imgRef cTmp cBase) cOuts 0 [cS0, cS1, cS2] [cB, cB] :=
  ⟨by decide, by decide, by decide, by decide⟩

/-- C1 (amended): provided that, at each successful step, the first occurrence
of the block's literal fenced text in the partially substituted document is at
that block's own position (`goodSteps` — in particular whenever no block's
text occurs twice), the substituter replaces every successful block in place
by its image reference and preserves all text outside the replaced spans. -/
theorem processMermaid_in_place (tempDir base content : Str) (outs : Nat → Bool)
    (ss : List Str)
    (hdecomp : content = interleave ss (scanBlocks content))
    (hgood : goodSteps (imgRef tempDir base) outs 0 [] ss (scanBlocks content) = true) :
    (processMermaid tempDir base outs content).1
      = interleaveRepl (imgRef tempDir base) outs 0 ss (scanBlocks content) := by
  have h := substLoop_text (imgRef tempDir base) outs (scanBlocks content) ss 0 [] hgood
  rw [List.nil_append, List.nil_append, ← hdecomp] at h
  exact h

/-- C1, witness: a document with two distinct blocks, both successful, is
rewritten in place. -/
theorem processMermaid_in_place_witness :
    (wDoc = interleave [wS0, wS1, wS2] (scanBlocks wDoc) ∧
     goodSteps (imgRef wTmp wBase) wOuts 0 [] [wS0, wS1, wS2] (scanBlocks wDoc) = true) ∧
    (processMermaid wTmp wBase wOuts wDoc).1
      = interleaveRepl (imgRef wTmp wBase) wOuts 0 [wS0, wS1, wS2] (scanBlocks wDoc) :=
  ⟨⟨by decide, by decide⟩,
   processMermaid_in_place wTmp wBase wDoc wOuts [wS0, wS1, wS2] (by decide) (by decide)⟩

/-! ## Claim C2 — graceful per-block degradation -/

/-- C2, counterexample.  With two identical blocks where block 1 fails and
block 2 succeeds, the failed block's source is *not* left untouched at its own
position: its span is overwritten by block 2's image reference, and block 2's
span keeps the raw source.  (The counters are still correct.) -/
theorem processMermaid_failed_block_overwritten :
    scanBlocks dDoc = [dB, dB] ∧
    (processMermaid dTmp dBase dOuts dDoc).1
      = dS0 ++ imgRef dTmp dBase 2 ++ dS1 ++ dB ++ dS2 ∧
    (processMermaid dTmp dBase dOuts dDoc).1
      ≠ dS0 ++ dB ++ dS1 ++ imgRef dTmp dBase 2 ++ dS2 ∧
    (processMermaid dTmp dBase dOuts dDoc).2 = (1, 1) :=
  ⟨by decide, by decide, by decide, by decide⟩

/-- C2 (amended): under the same first-occurrence proviso as C1, every failed
block's fenced source stays untouched in place, every successful block is
substituted by its image reference, the counters count exactly the failed and
the successful blocks, and the document is always handed on (never aborted):
the returned text is exactly the final processed text. -/
theorem processMermaid_graceful (tempDir base content : Str) (outs : Nat → Bool)
    (ss : List Str)
    (hdecomp : content = interleave ss (scanBlocks content))
    (hgood : goodSteps (imgRef tempDir base) outs 0 [] ss (scanBlocks content) = true) :
    (processMermaid tempDir base outs content).1
      = interleaveRepl (imgRef tempDir base) outs 0 ss (scanBlocks content) ∧
    (processMermaid tempDir base outs content).2
      = countOutcomes outs 0 (scanBlocks content).length ∧
    processMermaidReturn tempDir base outs content
      = (processMermaid tempDir base outs content).1 := by
  refine ⟨?_, ?_, processMermaidReturn_eq _ _ _ _⟩
  · have h := substLoop_text (imgRef tempDir base) outs (scanBlocks content) ss 0 [] hgood
    rw [List.nil_append, List.nil_append, ← hdecomp] at h
    exact h
  · exact substLoop_counts _ _ _ _ _

/-- C2, witness: the specification's own example — three blocks, only block 2
failing — yields image references for blocks 1 and 3, raw source for block 2,
success count 2 and failure count 1. -/
theorem processMermaid_graceful_witness :
    (gDoc = interleave [gS0, gS1, gS2, gS3] (scanBlocks gDoc) ∧
     goodSteps (imgRef gTmp gBase) gOuts 0 [] [gS0, gS1, gS2, gS3] (scanBlocks gDoc) = true) ∧
    ((processMermaid gTmp gBase gOuts gDoc).1
        = interleaveRepl (imgRef gTmp gBase) gOuts 0 [gS0, gS1, gS2, gS3] (scanBlocks gDoc) ∧
      (processMermaid gTmp gBase gOuts gDoc).2
        = countOutcomes gOuts 0 (scanBlocks gDoc).length ∧
      processMermaidReturn gTmp gBase gOuts gDoc
        = (processMermaid gTmp gBase gOuts gDoc).1) ∧
    (processMermaid gTmp gBase gOuts gDoc).1
      = gS0 ++ imgRef gTmp gBase 1 ++ gS1 ++ gB2 ++ gS2 ++ imgRef gTmp gBase 3 ++ gS3 ∧
    (processMermaid gTmp gBase gOuts gDoc).2 = (2, 1) :=
  ⟨⟨by decide, by decide⟩,
   processMermaid_graceful gTmp gBase gDoc gOuts [gS0, gS1, gS2, gS3] (by decide) (by decide),
   by decide, by decide⟩

/-! ## Claim C3 — total defaulting of the configuration resolver -/

/-- C3, counterexample.  A valid user config supplying only `font.url` (the
schema allows any subset of fields) resolves — because the `font` key replaces
the default wholesale — to a configuration whose `font.family` is absent, so
not every field of the resolved config is non-null. -/
theorem loadBrandConfig_font_family_absent :
    (loadBrandConfig (BrandFile.parsed u3)).1.font.family = none ∧
    (loadBrandConfig (BrandFile.parsed u3)).1.font.url = u3font.url ∧
    (loadBrandConfig (BrandFile.parsed u3)).2 = false :=
  ⟨rfl, rfl, rfl⟩

/-- C3 (amended): for every input state of the brand file, parse failure warns
and yields the full defaults, a missing file yields the defaults, and every
scalar field and every nested color key of the resolved config is either the
documented default or the user-supplied value (hence non-null).  The `font`
object is the exception forced by the counterexample: when supplied it is
taken over wholesale, so its sub-fields are exactly the user's, and
`font.family` may be absent. -/
theorem loadBrandConfig_total_defaulting (f : BrandFile) :
    ((loadBrandConfig f).2 = true ↔ f = BrandFile.invalid) ∧
    (f = BrandFile.invalid → (loadBrandConfig f).1 = defaultBrand) ∧
    (f = BrandFile.missing → (loadBrandConfig f).1 = defaultBrand) ∧
    ((loadBrandConfig f).1.name = defaultBrand.name ∨
      ∃ u, f = BrandFile.parsed u ∧ u.name = some (loadBrandConfig f).1.name) ∧
    ((loadBrandConfig f).1.header = defaultBrand.header ∨
      ∃ u, f = BrandFile.parsed u ∧ u.header = some (loadBrandConfig f).1.header) ∧
    ((loadBrandConfig f).1.footer = defaultBrand.footer ∨
      ∃ u, f = BrandFile.parsed u ∧ u.footer = some (loadBrandConfig f).1.footer) ∧
    ((loadBrandConfig f).1.colors.primary = defaultColors.primary ∨
      ∃ u c, f = BrandFile.parsed u ∧ u.colors = some c ∧
        c.primary = some (loadBrandConfig f).1.colors.primary) ∧
    ((loadBrandConfig f).1.colors.accent = defaultColors.accent ∨
      ∃ u c, f = BrandFile.parsed u ∧ u.colors = some c ∧
        c.accent = some (loadBrandConfig f).1.colors.accent) ∧
    ((loadBrandConfig f).1.colors.secondary = defaultColors.secondary ∨
      ∃ u c, f = BrandFile.parsed u ∧ u.colors = some c ∧
        c.secondary = some (loadBrandConfig f).1.colors.secondary) ∧
    ((loadBrandConfig f).1.colors.warning = defaultColors.warning ∨
      ∃ u c, f = BrandFile.parsed u ∧ u.colors = some c ∧
        c.warning = some (loadBrandConfig f).1.colors.warning) ∧
    ((loadBrandConfig f).1.colors.lightGrey = defaultColors.lightGrey ∨
      ∃ u c, f = BrandFile.parsed u ∧ u.colors = some c ∧
        c.lightGrey = some (loadBrandConfig f).1.colors.lightGrey) ∧
    ((loadBrandConfig f).1.colors.borderGrey = defaultColors.borderGrey ∨
      ∃ u c, f = BrandFile.parsed u ∧ u.colors = some c ∧
        c.borderGrey = some (loadBrandConfig f).1.colors.borderGrey) ∧
    ((loadBrandConfig f).1.font = defaultFont ∨
      ∃ u uf, f = BrandFile.parsed u ∧ u.font = some uf ∧
        (loadBrandConfig f).1.font = { family := uf.family, url := uf.url }) := by
  cases f with
  | missing => simp [loadBrandConfig, defaultBrand]
  | invalid => simp [loadBrandConfig, defaultBrand]
  | parsed u =>
    refine ⟨by simp [loadBrandConfig], by simp, by simp,
      ?_, ?_, ?_, ?_, ?_, ?_, ?_, ?_, ?_, ?_⟩
    · cases hn : u.name with
      | none => exact Or.inl (by simp [loadBrandConfig, hn, defaultBrand])
      | some v => exact Or.inr ⟨u, rfl, by simp [loadBrandConfig, hn]⟩
    · cases hn : u.header with
      | none => exact Or.inl (by simp [loadBrandConfig, hn, defaultBrand])
      | some v => exact Or.inr ⟨u, rfl, by simp [loadBrandConfig, hn]⟩
    · cases hn : u.footer with
      | none => exact Or.inl (by simp [loadBrandConfig, hn, defaultBrand])
      | some v => exact Or.inr ⟨u, rfl, by simp [loadBrandConfig, hn]⟩
    · cases hc : u.colors with
      | none => exact Or.inl (by simp [loadBrandConfig, mergeColors, hc])
      | some c =>
        cases hv : c.primary with
        | none => exact Or.inl (by simp [loadBrandConfig, mergeColors, hc, hv])
        | some v => exact Or.inr ⟨u, c, rfl, hc, by simp [loadBrandConfig, mergeColors, hc, hv]⟩
    · cases hc : u.colors with
      | none => exact Or.inl (by simp [loadBrandConfig, mergeColors, hc])
      | some c =>
        cases hv : c.accent with
        | none => exact Or.inl (by simp [loadBrandConfig, mergeColors, hc, hv])
        | some v => exact Or.inr ⟨u, c, rfl, hc, by simp [loadBrandConfig, mergeColors, hc, hv]⟩
    · cases hc : u.colors with
      | none => exact Or.inl (by simp [loadBrandConfig, mergeColors, hc])
      | some c =>
        cases hv : c.secondary with
        | none => exact Or.inl (by simp [loadBrandConfig, mergeColors, hc, hv])
        | some v => exact Or.inr ⟨u, c, rfl, hc, by simp [loadBrandConfig, mergeColors, hc, hv]⟩
    · cases hc : u.colors with
      | none => exact Or.inl (by simp [loadBrandConfig, mergeColors, hc])
      | some c =>
        cases hv : c.warning with
        | none => exact Or.inl (by simp [loadBrandConfig, mergeColors, hc, hv])
        | some v => exact Or.inr ⟨u, c, rfl, hc, by simp [loadBrandConfig, mergeColors, hc, hv]⟩
    · cases hc : u.colors with
      | none => exact Or.inl (by simp [loadBrandConfig, mergeColors, hc])
      | some c =>
        cases hv : c.lightGrey with
        | none => exact Or.inl (by simp [loadBrandConfig, mergeColors, hc, hv])
        | some v => exact Or.inr ⟨u, c, rfl, hc, by simp [loadBrandConfig, mergeColors, hc, hv]⟩
    · cases hc : u.colors with
      | none => exact Or.inl (by simp [loadBrandConfig, mergeColors, hc])
      | some c =>
        cases hv : c.borderGrey with
        | none => exact Or.inl (by simp [loadBrandConfig, mergeColors, hc, hv])
        | some v => exact Or.inr ⟨u, c, rfl, hc, by simp [loadBrandConfig, mergeColors, hc, hv]⟩
    · cases hf : u.font with
      | none => exact Or.inl (by simp [loadBrandConfig, hf, defaultBrand])
      | some uf => exact Or.inr ⟨u, uf, rfl, hf, by simp [loadBrandConfig, hf]⟩

/-- C3, witness: an invalid brand file warns and resolves to the full
defaults. -/
theorem loadBrandConfig_total_defaulting_witness :
    (loadBrandConfig BrandFile.invalid).2 = true ∧
    (loadBrandConfig BrandFile.invalid).1 = defaultBrand :=
  ⟨(loadBrandConfig_total_defaulting BrandFile.invalid).1.mpr rfl,
   (loadBrandConfig_total_defaulting BrandFile.invalid).2.1 rfl⟩

/-! ## Claim C4 — zero-diagram fast path of the local variant -/

/-- C4, counterexample.  `nbDoc` contains the substring `` ```mermaid `` but
no complete fenced diagram block, so the document has zero diagram blocks; yet
`hasMermaid` is true and the local variant's `generatePdf` invokes the
external renderer once on it — not zero times. -/
theorem mermaid_tag_without_block_invokes_renderer :
    scanBlocks nbDoc = [] ∧
    hasMermaid nbDoc = true ∧
    (localPreprocess nbDoc MmdcResult.failed).2 = 1 :=
  ⟨by decide, by decide, by decide⟩

/-- C4 (amended): for every document that does not contain the literal
substring `` ```mermaid `` (the check `hasMermaid` actually performs), the
document has zero diagram blocks, the pipeline uses its text
character-for-character unchanged, and it makes zero invocations of the
external diagram renderer. -/
theorem no_tag_fast_path (content : Str) (h : hasMermaid content = false) :
    scanBlocks content = [] ∧
    ∀ r, localPreprocess content r = (content, 0) := by
  refine ⟨scanBlocks_nil_of_no_tag content h, fun r => ?_⟩
  simp [localPreprocess, h]

/-- C4, witness: a plain document takes the fast path. -/
theorem no_tag_fast_path_witness :
    hasMermaid plainDoc = false ∧
    (scanBlocks plainDoc = [] ∧ ∀ r, localPreprocess plainDoc r = (plainDoc, 0)) :=
  ⟨by decide, no_tag_fast_path plainDoc (by decide)⟩

/-! ## Claim C5 — scratch-directory cleanup on every termination path -/

/-- C5: the containerized variant's `main().catch` handler exits without
removing the scratch directory, so on the uncaught-fatal-error path the
directory survives; the local variant's handler does call `cleanup()` on every
path.  This contradicts the documented cleanup contract. -/
theorem container_fatal_path_keeps_scratch :
    containerScratchRemoved TermPath.fatalError = false ∧
    (∀ p, localScratchRemoved p = true) ∧
    containerScratchRemoved TermPath.success = true :=
  ⟨rfl, fun p => by cases p <;> rfl, rfl⟩

/-! ## Claim C6 — directory file selection -/

/-- C6, counterexample.  The claim demands exclusion exactly of names
containing `template` or `readme` case-insensitively.  But the local variant's
`template` test is case-sensitive (`Template.md` is selected although its
lowercase form contains `template`), and the container variant has no
`template` exclusion at all, so the claim's own example yields `template.md`
and `doc.md` there. -/
theorem template_filter_mismatch :
    selectLocal [mixedTemplateName] = [mixedTemplateName] ∧
    containsSub (lowerStr mixedTemplateName) templateStr = true ∧
    selectContainer [readmeName, templateName, docName] = [templateName, docName] :=
  ⟨by decide, by decide, by decide⟩

/-- C6 (amended): the local variant selects exactly the names ending in `.md`
whose text does not contain `template` (case-sensitively) and whose lowercase
form does not contain `readme`; on the all-lowercase example directory this
yields only `doc.md`. -/
theorem selectLocal_characterization :
    (∀ (names : List Str) (f : Str),
      f ∈ selectLocal names ↔
        f ∈ names ∧ endsWith f mdExt = true ∧ containsSub f templateStr = false ∧
          containsSub (lowerStr f) readmeStr = false) ∧
    selectLocal [readmeName, templateName, docName] = [docName] := by
  constructor
  · intro names f
    simp only [selectLocal, List.mem_filter, Bool.and_eq_true, Bool.not_eq_true']
    tauto
  · decide

/-! ## Claim C7 — batch timestamp -/

/-- C7, counterexample.  At UTC instant 2024-03-05T22:30Z in a UTC+2 timezone
(local calendar time 2024-03-06T00:30), the local variant's suffix mixes the
UTC date with the local time of day: it equals `20240305-0030`, which is the
`YYYYMMDD-HHmm` of *neither* the UTC processing moment (`20240305-2230`) nor
the local processing moment (`20240306-0030`). -/
theorem timestamp_mixed_clock :
    getDateTimeSuffix clkMix = "20240305-0030".data ∧
    getDateTimeSuffix clkMix ≠ specStamp 2024 3 5 22 30 ∧
    getDateTimeSuffix clkMix ≠ specStamp 2024 3 6 0 30 :=
  ⟨by decide, by decide, by decide⟩

/-- C7 (amended): one suffix is computed once per batch and shared by every
output name, each output being `<basename>_<suffix>.pdf`; and whenever the
local timezone offset is zero the suffix is exactly the `YYYYMMDD-HHmm` of the
processing moment. -/
theorem timestamp_shared_once (c : Clock) (bases : List Str)
    (hh : c.hour < 24) (hm : c.minute < 60) :
    (∀ n ∈ batchOutputs bases c, ∃ b ∈ bases, n = outputName b (getDateTimeSuffix c)) ∧
    (c.tzOffsetMinutes = 0 →
      getDateTimeSuffix c = specStamp c.year c.month c.day c.hour c.minute) := by
  constructor
  · intro n hn
    rw [batchOutputs, List.mem_map] at hn
    obtain ⟨b, hb, he⟩ := hn
    exact ⟨b, hb, he.symm⟩
  · intro h0
    have hl : localMinutesOfDay c = c.hour * 60 + c.minute := by
      unfold localMinutesOfDay
      rw [h0]
      omega
    have hdiv : (c.hour * 60 + c.minute) / 60 = c.hour := by omega
    have hmod : (c.hour * 60 + c.minute) % 60 = c.minute := by omega
    unfold getDateTimeSuffix specStamp
    rw [hl, hdiv, hmod]

/-- C7, witness: at 2024-03-05T14:07 UTC (offset 0) the single file `spec.md`
is named `spec_20240305-1407.pdf`. -/
theorem timestamp_shared_once_witness :
    (clkUtc.hour < 24 ∧ clkUtc.minute < 60) ∧
    ((∀ n ∈ batchOutputs [specBase] clkUtc,
        ∃ b ∈ [specBase], n = outputName b (getDateTimeSuffix clkUtc)) ∧
     (clkUtc.tzOffsetMinutes = 0 →
        getDateTimeSuffix clkUtc
          = specStamp clkUtc.year clkUtc.month clkUtc.day clkUtc.hour clkUtc.minute)) ∧
    outputName specBase (getDateTimeSuffix clkUtc) = "spec_20240305-1407.pdf".data :=
  ⟨⟨by decide, by decide⟩,
   timestamp_shared_once clkUtc [specBase] (by decide) (by decide),
   by decide⟩

/-! ## Claim C8 — font merge and downstream consumers -/

/-- C8, counterexample.  A config supplying only `font.url` resolves to an
absent `font.family` (no per-sub-field defaulting in the resolver), and the
container variant's consumer (`getPdfOptions`) reads `brand.font.family`
without any fallback — it receives no value.  Only the local variant's
consumer substitutes the default family via `||`. -/
theorem font_url_only_family_none :
    (loadBrandConfig (BrandFile.parsed u8)).1.font.family = none ∧
    containerFontFamily (loadBrandConfig (BrandFile.parsed u8)).1 = none ∧
    localFontFamily (loadBrandConfig (BrandFile.parsed u8)).1 = defaultFontFamily :=
  ⟨rfl, rfl, rfl⟩

/-- C8 (amended): a supplied `font` object replaces the default wholesale, so
the resolved sub-fields are exactly the user's; when `family` is absent the
local variant's consumer (`buildPdfOptions`, via `||`) falls back to the
default family while the container variant's consumer receives no value; when
a non-empty `family` is supplied both consumers receive it. -/
theorem font_wholesale_with_local_fallback (u : UserBrand) (uf : UserFont)
    (h : u.font = some uf) :
    (loadBrandConfig (BrandFile.parsed u)).1.font = { family := uf.family, url := uf.url } ∧
    (uf.family = none →
      localFontFamily (loadBrandConfig (BrandFile.parsed u)).1 = defaultFontFamily ∧
      containerFontFamily (loadBrandConfig (BrandFile.parsed u)).1 = none) ∧
    (∀ fam, uf.family = some fam → fam ≠ [] →
      localFontFamily (loadBrandConfig (BrandFile.parsed u)).1 = fam ∧
      containerFontFamily (loadBrandConfig (BrandFile.parsed u)).1 = some fam) := by
  refine ⟨by simp [loadBrandConfig, h], fun hf => ?_, fun fam hf hne => ?_⟩
  · constructor
    · simp [localFontFamily, loadBrandConfig, h, hf]
    · simp [containerFontFamily, loadBrandConfig, h, hf]
  · constructor
    · simp [localFontFamily, loadBrandConfig, h, hf, hne]
    · simp [containerFontFamily, loadBrandConfig, h, hf]

/-- C8, witness: the url-only config `u8` exercises the absent-family branch. -/
theorem font_wholesale_with_local_fallback_witness :
    (u8.font = some u8font ∧ u8font.family = none) ∧
    ((loadBrandConfig (BrandFile.parsed u8)).1.font
        = { family := u8font.family, url := u8font.url } ∧
      (u8font.family = none →
        localFontFamily (loadBrandConfig (BrandFile.parsed u8)).1 = defaultFontFamily ∧
        containerFontFamily (loadBrandConfig (BrandFile.parsed u8)).1 = none) ∧
      (∀ fam, u8font.family = some fam → fam ≠ [] →
        localFontFamily (loadBrandConfig (BrandFile.parsed u8)).1 = fam ∧
        containerFontFamily (loadBrandConfig (BrandFile.parsed u8)).1 = some fam)) :=
  ⟨⟨rfl, rfl⟩, font_wholesale_with_local_fallback u8 u8font rfl⟩

/-! ## Claim C9 — equivalence of the two entry points -/

/-- C9, counterexample.  The two variants are not behaviorally equivalent
beyond default paths: on a directory containing only `template.md` the local
variant selects nothing while the container variant selects the file; and on
the same clock the two timestamp functions disagree (the local one mixes UTC
date with local time, the container one is all-UTC). -/
theorem variants_differ_on_template :
    selectLocal [templateName] = [] ∧
    selectContainer [templateName] = [templateName] ∧
    getDateTimeSuffix clkMix ≠ getTimestamp clkMix :=
  ⟨by decide, by decide, by decide⟩

/-- C9 (amended): the variants do agree on brand-configuration resolution
(identical merge code) and on directory selection restricted to names free of
`template` (case-insensitively); they differ in the `template` exclusion,
the timestamp derivation, the Mermaid theme table, the font-family fallback
and the fatal-error cleanup. -/
theorem variants_agree_on_core (f : BrandFile) (names : List Str)
    (h : ∀ n ∈ names, containsSub (lowerStr n) templateStr = false) :
    loadBrandConfig f = loadBrand f ∧
    selectLocal names = selectContainer names := by
  constructor
  · cases f <;> rfl
  · unfold selectLocal selectContainer
    rw [List.filter_filter]
    apply List.filter_congr
    intro n hn
    have h1 : containsSub (lowerStr n) templateStr = false := h n hn
    have h2 : containsSub n templateStr = false := by
      cases hb : containsSub n templateStr with
      | false => rfl
      | true =>
        have := containsSub_lower_of n templateStr (by decide) hb
        rw [h1] at this
        exact absurd this (by simp)
    simp [h2, Bool.and_comm]

/-- C9, witness: on a template-free directory both variants select the same
files, and the resolvers agree on a missing brand file. -/
theorem variants_agree_on_core_witness :
    (∀ n ∈ [docName, notesName], containsSub (lowerStr n) templateStr = false) ∧
    (loadBrandConfig BrandFile.missing = loadBrand BrandFile.missing ∧
      selectLocal [docName, notesName] = selectContainer [docName, notesName]) :=
  ⟨by decide, variants_agree_on_core BrandFile.missing [docName, notesName] (by decide)⟩

/-! ## Claim C10 — all-or-nothing preprocessing in the container variant -/

/-- C10: the container variant's `processMermaid` hands the whole document to
the renderer in a single invocation (exactly one when `hasMermaid` holds,
never more than one), and on failure returns the original input unchanged; the
output is always either the whole-file transform or the untouched input —
never a per-block partial substitution. -/
theorem containerProcessMermaid_all_or_nothing (input : Str) (r : MmdcResult) :
    (hasMermaid input = true → (containerPreprocess input r).2 = 1) ∧
    (containerPreprocess input r).2 ≤ 1 ∧
    (r = MmdcResult.failed → (containerPreprocess input r).1 = input) ∧
    ((containerPreprocess input r).1 = input ∨
      r = MmdcResult.ok (containerPreprocess input r).1) := by
  by_cases h : hasMermaid input = true <;> cases r <;>
    simp [containerPreprocess, containerProcessMermaid, h]

/-- C10, witness: a document with one diagram block whose single whole-file
render fails is handed on unchanged after exactly one invocation. -/
theorem containerProcessMermaid_all_or_nothing_witness :
    hasMermaid c10Doc = true ∧
    ((hasMermaid c10Doc = true → (containerPreprocess c10Doc MmdcResult.failed).2 = 1) ∧
      (containerPreprocess c10Doc MmdcResult.failed).2 ≤ 1 ∧
      (MmdcResult.failed = MmdcResult.failed →
        (containerPreprocess c10Doc MmdcResult.failed).1 = c10Doc) ∧
      ((containerPreprocess c10Doc MmdcResult.failed).1 = c10Doc ∨
        MmdcResult.failed = MmdcResult.ok (containerPreprocess c10Doc MmdcResult.failed).1)) :=
  ⟨by decide, containerProcessMermaid_all_or_nothing c10Doc MmdcResult.failed⟩

end Md2Pdf
